import Mathlib

/-!
Verification of the RAG chatbot query pipeline (services/api/app).

This file gives a shallow embedding of the query-time caching, retrieval,
prompting, generation-fallback and metrics code of the repository, and proves
or refutes the frozen specification claims about it.

Modelling conventions, used throughout:
- Python strings are Lean `String`; Python `str.replace`, `str.lower` and
  `str.strip` are re-implemented below over `List Char` so that every
  definition is executable and kernel-reducible.
- Similarity scores (Python floats) are modelled as rationals `Rat`; the
  binary floating point representation itself is not load-bearing for any
  claim (all claims compare scores or treat them opaquely).
- Wall-clock quantities (latency fields, retry backoff sleeps, TTL expiry)
  have no shallow embedding; latency values recorded into the metrics are
  supplied by the environment, and latency response fields are omitted.
- External collaborators (Redis, the Qdrant index, the embedding model, the
  OpenRouter HTTP endpoint, the md5 digest, template files) are parameters
  of the embedded functions; the repository code that consumes their results
  is translated faithfully.
-/

set_option autoImplicit false

namespace Rag

/-! ## Python string primitives

`app/cache.py` normalizes queries with `query.lower().strip()` and
`app/prompting.py` substitutes placeholders with `str.replace`.  These are
re-implemented here with Python semantics (replace substitutes every
non-overlapping occurrence, scanning left to right, without rescanning the
replacement text within one call). -/

/-- Python `str.lower`, restricted to the character-wise case mapping
(identical to Python on the ASCII data appearing in this code base). -/
def pyLower (s : String) : String :=
  String.mk (s.data.map Char.toLower)

/-- Python whitespace characters recognized by `str.strip()` with no
argument: space, tab, newline, carriage return, vertical tab, form feed. -/
def isPyWhitespace (c : Char) : Bool :=
  c = ' ' || c = '\t' || c = '\n' || c = '\r' || c = Char.ofNat 11 || c = Char.ofNat 12

/-- Python `str.strip()`: drop leading and trailing whitespace. -/
def pyStrip (s : String) : String :=
  String.mk (((s.data.dropWhile isPyWhitespace).reverse.dropWhile isPyWhitespace).reverse)

/-- Scanner for `pyReplace`.  The `skip` counter is positive while the tail of
a just-matched occurrence is being consumed, so matched text is never
rescanned and replacement text is never rescanned within the same call.
(The empty-pattern corner of Python `str.replace` is irrelevant here: the
code only ever replaces the nonempty literals  "\x7bquestion\x7d" and
"\x7bcontext\x7d".) -/
def replaceAux (pat rep : List Char) : List Char → Nat → List Char
  | [], _ => []
  | _c :: rest, Nat.succ skip => replaceAux pat rep rest skip
  | c :: rest, 0 =>
    if pat.isPrefixOf (c :: rest) then
      rep ++ replaceAux pat rep rest (pat.length - 1)
    else
      c :: replaceAux pat rep rest 0

/-- Python `s.replace(pat, rep)`: substitute every non-overlapping occurrence
of `pat` in `s`, scanning left to right. -/
def pyReplace (s pat rep : String) : String :=
  String.mk (replaceAux pat.data rep.data s.data 0)

/-- Predicate `containsSub pat s`: decides whether `pat` occurs as a contiguous
substring of `s` (on the underlying character lists). -/
def containsSub (pat : List Char) : List Char → Bool
  | [] => pat.isEmpty
  | c :: rest => pat.isPrefixOf (c :: rest) || containsSub pat rest

/-- If the pattern does not occur in the input, `replaceAux` is the
identity. -/
theorem replaceAux_of_not_containsSub (pat rep : List Char) :
    ∀ s : List Char, containsSub pat s = false → replaceAux pat rep s 0 = s := by
  intro s
  induction s with
  | nil => intro _; rfl
  | cons c rest ih =>
    intro h
    simp only [containsSub, Bool.or_eq_false_iff] at h
    simp only [replaceAux, h.1, Bool.false_eq_true, if_false]
    rw [ih h.2]

/-- If the pattern does not occur in the string, `pyReplace` is the
identity. -/
theorem pyReplace_of_not_containsSub (s pat rep : String)
    (h : containsSub pat.data s.data = false) : pyReplace s pat rep = s := by
  unfold pyReplace
  rw [replaceAux_of_not_containsSub pat.data rep.data s.data h]

/-! ## Data model: context chunks and LLM messages (`app/models.py`) -/

/-- Record `ContextChunk` of `app/models.py` / `app/routes/query.py`: one retrieved
passage. -/
structure Chunk where
  id : String
  source : String
  text : String
  score : Rat
deriving Repr, DecidableEq

/-- One chat message `{"role": ..., "content": ...}`. -/
structure Message where
  role : String
  content : String
deriving Repr, DecidableEq

/-! ## Prompt assembly (`app/prompting.py`) -/

/-- Helper for the Python format spec `score:.2f`: fixed two-decimal
rendering.  The float-specific rounding of Python is abstracted to exact
rational rounding; no claim depends on the rendered digits. -/
def formatScore2 (q : Rat) : String :=
  let cents : Int := round (q * 100)
  let sign : String := if cents < 0 then "-" else ""
  sign ++ toString (cents.natAbs / 100) ++ "." ++
    (if cents.natAbs % 100 < 10 then "0" ++ toString (cents.natAbs % 100)
     else toString (cents.natAbs % 100))

/-- Function `format_context` of `app/prompting.py`: label each chunk
`[Fuente i: source (relevancia: score)]` and join with a fixed separator;
empty chunk lists yield a fixed placeholder.  (The `.get` defaults of the
Python dict access never fire in the routes, which always supply all three
keys; the structure fields are used directly.) -/
def format_context (chunks : List Chunk) : String :=
  if chunks = [] then "[No se encontró contexto relevante]"
  else
    String.intercalate "\n\n---\n\n"
      (chunks.enum.map (fun p =>
        "[Fuente " ++ toString (p.1 + 1) ++ ": " ++ p.2.source ++
          " (relevancia: " ++ formatScore2 p.2.score ++ ")]\n" ++ p.2.text))

/-- Function `build_messages` of `app/prompting.py`: system message, optional session
history, then the user message obtained by substituting first
"\x7bquestion\x7d" and then "\x7bcontext\x7d" into the user template with
Python `str.replace`. -/
def build_messages (system_template user_template question : String)
    (context_chunks : List Chunk) (session_history : Option (List Message)) :
    List Message :=
  let history := match session_history with
    | some h => h
    | none => []
  let context_text := format_context context_chunks
  let user_content :=
    pyReplace (pyReplace user_template "{question}" question) "{context}" context_text
  ([⟨"system", system_template⟩] ++ history) ++ [⟨"user", user_content⟩]

/-! ## Generation client with fallback (`app/llm/openrouter_client.py`)

The HTTP transport is a parameter: `transport model messages attempt`
yields the outcome of the POST made on the given (zero-based) attempt for
the given model and payload.  The retry backoff sleeps are timing only and
have no embedding. -/

/-- Exception `OpenRouterError`: message plus optional HTTP status code. -/
structure OpenRouterErr where
  message : String
  status_code : Option Nat
deriving Repr, DecidableEq

/-- Outcome of one HTTP POST to the chat-completion endpoint, as the code
distinguishes them: a 200 response with extracted content, a non-200 status,
`httpx.TimeoutException`, or `httpx.RequestError`. -/
inductive TransportResult where
  | success (content : String)
  | httpStatus (status : Nat)
  | timeout
  | requestError (msg : String)
deriving Repr, DecidableEq

/-- A mock transport: model, message payload and attempt index determine the
outcome of the POST. -/
abbrev Transport := String → List Message → Nat → TransportResult

/-- Successful chat-completion result.  The fields `usage` and `latency_ms`
of the Python dict are dropped (the former is opaque payload, the latter is
wall-clock); `model` is the requested model (the code defaults to it when
the response carries none). -/
structure ChatResult where
  content : String
  model : String
deriving Repr, DecidableEq

/-- The API-error value built from a non-200 response.  The code appends any
error detail found in the response JSON to this base text; the detail is
abstracted away (no claim reads it). -/
def errOfStatus (status : Nat) : OpenRouterErr :=
  ⟨"OpenRouter API error: " ++ toString status, some status⟩

/-- The `no reintentar en errores 4xx (excepto 429)` test of
`call_chat_completion`. -/
def isNonRetryable4xx (status : Nat) : Bool :=
  decide (400 ≤ status) && decide (status < 500) && decide (status ≠ 429)

/-- The retry loop `for attempt in range(max_retries + 1)` of
`call_chat_completion`.  Arguments: current attempt index and number of loop
iterations still available (including the current one).  Returns the result
together with the number of transport invocations made.  A non-retryable
4xx raises immediately (the raised `OpenRouterError` is not caught by the
`except` clauses, which only catch the httpx exceptions); every other
failure records `last_error` and falls to the next iteration, and the loop
end raises the last error.  The zero-iterations base case is unreachable
from `call_chat_completion` (which always supplies `max_retries + 1 ≥ 1`
iterations). -/
def runAttempts (transport : Transport) (model : String) (messages : List Message)
    (timeout : Nat) : Nat → Nat → Except OpenRouterErr ChatResult × Nat
  | _attempt, 0 => (Except.error ⟨"no attempt made", none⟩, 0)
  | attempt, Nat.succ remaining =>
    match transport model messages attempt with
    | .success content => (Except.ok ⟨content, model⟩, 1)
    | .httpStatus status =>
      if isNonRetryable4xx status then (Except.error (errOfStatus status), 1)
      else if remaining = 0 then (Except.error (errOfStatus status), 1)
      else
        let r := runAttempts transport model messages timeout (attempt + 1) remaining
        (r.1, r.2 + 1)
    | .timeout =>
      let e : OpenRouterErr := ⟨"Timeout after " ++ toString timeout ++ "s", none⟩
      if remaining = 0 then (Except.error e, 1)
      else
        let r := runAttempts transport model messages timeout (attempt + 1) remaining
        (r.1, r.2 + 1)
    | .requestError msg =>
      let e : OpenRouterErr := ⟨"Request error: " ++ msg, none⟩
      if remaining = 0 then (Except.error e, 1)
      else
        let r := runAttempts transport model messages timeout (attempt + 1) remaining
        (r.1, r.2 + 1)

/-- Function `call_chat_completion` of `app/llm/openrouter_client.py`: missing API
key fails immediately without any transport call; otherwise the retry loop
runs with `max_retries + 1` iterations.  Second component: number of
transport invocations actually made. -/
def call_chat_completion (transport : Transport) (api_key : Option String)
    (model : String) (messages : List Message) (timeout : Nat)
    (max_retries : Nat) : Except OpenRouterErr ChatResult × Nat :=
  match api_key with
  | none => (Except.error ⟨"OPENROUTER_API_KEY not set in environment", none⟩, 0)
  | some _ => runAttempts transport model messages timeout 0 (max_retries + 1)

/-- Result of `call_with_fallback`: content, model and the `used_fallback`
flag added by the function. -/
structure FallbackResult where
  content : String
  model : String
  used_fallback : Bool
deriving Repr, DecidableEq

/-- Function `call_with_fallback` of `app/llm/openrouter_client.py`: try the primary
model; on any `OpenRouterError` call `call_chat_completion` again with the
fallback model, the same message payload and the same `max_retries`.
Returns the result together with (primary, fallback) transport-invocation
counts. -/
def call_with_fallback (transport : Transport) (api_key : Option String)
    (primary_model fallback_model : String) (messages : List Message)
    (timeout max_retries : Nat) :
    Except OpenRouterErr FallbackResult × Nat × Nat :=
  match call_chat_completion transport api_key primary_model messages timeout max_retries with
  | (Except.ok r, n) => (Except.ok ⟨r.content, r.model, false⟩, n, 0)
  | (Except.error _, n) =>
    match call_chat_completion transport api_key fallback_model messages timeout max_retries with
    | (Except.ok r, m) => (Except.ok ⟨r.content, r.model, true⟩, n, m)
    | (Except.error e, m) => (Except.error e, n, m)

/-- Transport outcomes the retry loop treats as transient: timeout,
connection error, HTTP 429.  (The loop also retries 5xx statuses; the
claims only quantify over these three kinds.) -/
def isRetryableFailure : TransportResult → Bool
  | .timeout => true
  | .requestError _ => true
  | .httpStatus s => s == 429
  | .success _ => false

/-- The retry loop makes at most as many transport invocations as it has
iterations available. -/
theorem runAttempts_count_le (transport : Transport) (model : String)
    (messages : List Message) (timeout : Nat) :
    ∀ r a, (runAttempts transport model messages timeout a r).2 ≤ r := by
  intro r
  induction r with
  | zero => intro a; simp [runAttempts]
  | succ n ih =>
    intro a
    simp only [runAttempts]
    match transport model messages a with
    | .success content => simp
    | .httpStatus status =>
      by_cases h4 : isNonRetryable4xx status
      · simp [h4]
      · by_cases hn : n = 0
        · simp [h4, hn]
        · simpa [h4, hn] using ih (a + 1)
    | .timeout =>
      by_cases hn : n = 0
      · simp [hn]
      · simpa [hn] using ih (a + 1)
    | .requestError msg =>
      by_cases hn : n = 0
      · simp [hn]
      · simpa [hn] using ih (a + 1)

/-- If every attempt at a model fails with a retryable failure, the retry
loop consumes all its iterations and ends in an error. -/
theorem runAttempts_retryable_exhausts (transport : Transport) (model : String)
    (messages : List Message) (timeout : Nat)
    (hfail : ∀ n, isRetryableFailure (transport model messages n) = true) :
    ∀ r a, 1 ≤ r →
      ∃ e, runAttempts transport model messages timeout a r = (Except.error e, r) := by
  intro r
  induction r with
  | zero => intro a h; omega
  | succ n ih =>
    intro a _
    have hf := hfail a
    simp only [runAttempts]
    match htr : transport model messages a with
    | .success content => rw [htr] at hf; simp [isRetryableFailure] at hf
    | .httpStatus status =>
      rw [htr] at hf
      simp only [isRetryableFailure, beq_iff_eq] at hf
      subst hf
      have h4 : isNonRetryable4xx 429 = false := by decide
      by_cases hn : n = 0
      · subst hn; exact ⟨errOfStatus 429, by simp [h4]⟩
      · obtain ⟨e, he⟩ := ih (a + 1) (by omega)
        exact ⟨e, by simp [h4, hn, he]⟩
    | .timeout =>
      by_cases hn : n = 0
      · subst hn
        exact ⟨⟨"Timeout after " ++ toString timeout ++ "s", none⟩, by simp⟩
      · obtain ⟨e, he⟩ := ih (a + 1) (by omega)
        exact ⟨e, by simp [hn, he]⟩
    | .requestError msg =>
      by_cases hn : n = 0
      · subst hn
        exact ⟨⟨"Request error: " ++ msg, none⟩, by simp⟩
      · obtain ⟨e, he⟩ := ih (a + 1) (by omega)
        exact ⟨e, by simp [hn, he]⟩

/-- A transport on which every POST times out, for every model, payload and
attempt. -/
def timeoutTransport : Transport := fun _ _ _ => TransportResult.timeout

/-- A transport on which the primary model always times out and any other
model succeeds immediately. -/
def primaryDownTransport : Transport := fun model _ _ =>
  if model = "openai/gpt-3.5-turbo" then TransportResult.timeout
  else TransportResult.success "fallback answer"

/-- A transport on which the primary model answers HTTP 401 and any other
model succeeds immediately. -/
def primary401Transport : Transport := fun model _ _ =>
  if model = "openai/gpt-3.5-turbo" then TransportResult.httpStatus 401
  else TransportResult.success "fallback answer"

/-- C7: if the primary transport always raises a retryable error (timeout,
connection error, or HTTP 429) and the fallback transport succeeds,
generation returns the fallback content with `used_fallback = true`, after
exactly `max_retries + 1` attempts on the primary model (and one on the
fallback). -/
theorem C7_fallback_triggering (transport : Transport) (key : String)
    (primary_model fallback_model : String) (messages : List Message)
    (timeout max_retries : Nat) (c : String)
    (hprimary : ∀ n, isRetryableFailure (transport primary_model messages n) = true)
    (hfallback : transport fallback_model messages 0 = TransportResult.success c) :
    call_with_fallback transport (some key) primary_model fallback_model
        messages timeout max_retries
      = (Except.ok ⟨c, fallback_model, true⟩, max_retries + 1, 1) := by
  obtain ⟨e, he⟩ := runAttempts_retryable_exhausts transport primary_model messages
    timeout hprimary (max_retries + 1) 0 (by omega)
  have hp : call_chat_completion transport (some key) primary_model messages
      timeout max_retries = (Except.error e, max_retries + 1) := by
    simp [call_chat_completion, he]
  have hfb : call_chat_completion transport (some key) fallback_model messages
      timeout max_retries = (Except.ok ⟨c, fallback_model⟩, 1) := by
    simp [call_chat_completion, runAttempts, hfallback]
  simp [call_with_fallback, hp, hfb]

/-- Witness for C7 at a concrete transport with `max_retries = 2`. -/
theorem C7_fallback_triggering_witness :
    call_with_fallback primaryDownTransport (some "k") "openai/gpt-3.5-turbo"
        "anthropic/claude-instant-v1" [] 30 2
      = (Except.ok ⟨"fallback answer", "anthropic/claude-instant-v1", true⟩, 3, 1) :=
  C7_fallback_triggering primaryDownTransport "k" "openai/gpt-3.5-turbo"
    "anthropic/claude-instant-v1" [] 30 2 "fallback answer"
    (fun _ => rfl) rfl

/-- C8: a non-retryable 4xx on the primary (400-499 except 429) means
exactly one primary transport invocation — no retries — and then the
fallback call is made. -/
theorem C8_no_retry_non_retryable (transport : Transport) (key : String)
    (primary_model fallback_model : String) (messages : List Message)
    (timeout max_retries status : Nat)
    (h400 : 400 ≤ status) (h500 : status < 500) (h429 : status ≠ 429)
    (hprimary : transport primary_model messages 0 = TransportResult.httpStatus status) :
    (call_with_fallback transport (some key) primary_model fallback_model
        messages timeout max_retries).2.1 = 1
    ∧ (call_with_fallback transport (some key) primary_model fallback_model
        messages timeout max_retries).2.2
      = (call_chat_completion transport (some key) fallback_model messages
          timeout max_retries).2 := by
  have h4 : isNonRetryable4xx status = true := by
    simp [isNonRetryable4xx, h400, h500, h429]
  have hp : call_chat_completion transport (some key) primary_model messages
      timeout max_retries = (Except.error (errOfStatus status), 1) := by
    simp [call_chat_completion, runAttempts, hprimary, h4]
  rcases hfb : call_chat_completion transport (some key) fallback_model messages
    timeout max_retries with ⟨res, m⟩
  cases res <;> simp [call_with_fallback, hp, hfb]

/-- Witness for C8 at a concrete transport answering 401, `max_retries = 2`. -/
theorem C8_no_retry_non_retryable_witness :
    (call_with_fallback primary401Transport (some "k") "openai/gpt-3.5-turbo"
        "anthropic/claude-instant-v1" [] 30 2).2.1 = 1
    ∧ (call_with_fallback primary401Transport (some "k") "openai/gpt-3.5-turbo"
        "anthropic/claude-instant-v1" [] 30 2).2.2
      = (call_chat_completion primary401Transport (some "k")
          "anthropic/claude-instant-v1" [] 30 2).2 :=
  C8_no_retry_non_retryable primary401Transport "k" "openai/gpt-3.5-turbo"
    "anthropic/claude-instant-v1" [] 30 2 401 (by omega) (by omega) (by omega) rfl

/-- C3 as stated is false: `call_with_fallback` forwards the same
`max_retries` to the fallback call, so with `max_retries = 1` and a fallback
that keeps timing out, the fallback model is attempted twice, not once. -/
theorem C3_counterexample :
    (call_with_fallback timeoutTransport (some "k") "openai/gpt-3.5-turbo"
        "anthropic/claude-instant-v1" [] 30 1).2.2 = 2 ∧ (2 : Nat) ≠ 1 := by
  exact ⟨rfl, by omega⟩

/-- C3 amended: on exhaustion of the primary, the fallback leg is exactly
one further `call_chat_completion` with the same message payload — but with
the same `max_retries` budget rather than a single attempt, so it makes at
most `max_retries + 1` transport attempts (and can make more than one); a
successful fallback result is returned with `used_fallback = true`. -/
theorem C3_amended_fallback_same_payload (transport : Transport) (key : String)
    (primary_model fallback_model : String) (messages : List Message)
    (timeout max_retries : Nat) (e : OpenRouterErr) (n : Nat)
    (hp : call_chat_completion transport (some key) primary_model messages
        timeout max_retries = (Except.error e, n)) :
    (call_with_fallback transport (some key) primary_model fallback_model
        messages timeout max_retries).2.2
      = (call_chat_completion transport (some key) fallback_model messages
          timeout max_retries).2
    ∧ (call_with_fallback transport (some key) primary_model fallback_model
        messages timeout max_retries).2.2 ≤ max_retries + 1
    ∧ (call_with_fallback transport (some key) primary_model fallback_model
        messages timeout max_retries).1
      = (match (call_chat_completion transport (some key) fallback_model
            messages timeout max_retries).1 with
         | Except.ok r => Except.ok ⟨r.content, r.model, true⟩
         | Except.error e2 => Except.error e2) := by
  have hle : (call_chat_completion transport (some key) fallback_model messages
      timeout max_retries).2 ≤ max_retries + 1 := by
    simp only [call_chat_completion]
    exact runAttempts_count_le transport fallback_model messages timeout
      (max_retries + 1) 0
  rcases hfb : call_chat_completion transport (some key) fallback_model messages
    timeout max_retries with ⟨res, m⟩
  rw [hfb] at hle
  cases res <;> simp_all [call_with_fallback, hp, hfb]

/-- Witness for the amended C3 at the all-timeout transport with
`max_retries = 1` (the fallback makes 2 = `max_retries + 1` attempts). -/
theorem C3_amended_fallback_same_payload_witness :
    (call_with_fallback timeoutTransport (some "k") "openai/gpt-3.5-turbo"
        "anthropic/claude-instant-v1" [] 30 1).2.2
      = (call_chat_completion timeoutTransport (some "k")
          "anthropic/claude-instant-v1" [] 30 1).2
    ∧ (call_with_fallback timeoutTransport (some "k") "openai/gpt-3.5-turbo"
        "anthropic/claude-instant-v1" [] 30 1).2.2 ≤ 1 + 1
    ∧ (call_with_fallback timeoutTransport (some "k") "openai/gpt-3.5-turbo"
        "anthropic/claude-instant-v1" [] 30 1).1
      = (match (call_chat_completion timeoutTransport (some "k")
            "anthropic/claude-instant-v1" [] 30 1).1 with
         | Except.ok r => Except.ok ⟨r.content, r.model, true⟩
         | Except.error e2 => Except.error e2) :=
  C3_amended_fallback_same_payload timeoutTransport "k" "openai/gpt-3.5-turbo"
    "anthropic/claude-instant-v1" [] 30 1 ⟨"Timeout after 30s", none⟩ 2 rfl

/-! ## Placeholder substitution: claim C6

The specification-side reading of "substitutes each placeholder exactly
once" is formalised next to the code-side `pyReplace` so the two can be
compared. -/

/-- Specification-side substitution, following the claim words "substitutes
the placeholders exactly once each ... even when a placeholder occurs
multiple times": replace only the first occurrence of the pattern.  Declared
only to be compared with the code-side `pyReplace`. -/
def replaceFirstAux (pat rep : List Char) : List Char → List Char
  | [] => []
  | c :: rest =>
    if pat.isPrefixOf (c :: rest) then rep ++ (c :: rest).drop pat.length
    else c :: replaceFirstAux pat rep rest

/-- Specification-side substitution on strings: first occurrence only. -/
def substituteOnce (s pat rep : String) : String :=
  String.mk (replaceFirstAux pat.data rep.data s.data)

/-- C6 as stated is false: with the user template
"\x7bquestion\x7d \x7bquestion\x7d" and question "Q", `build_messages`
substitutes both occurrences (producing "Q Q", leaving no occurrence of the
placeholder), while exactly-once substitution would leave the second
occurrence verbatim. -/
theorem C6_counterexample :
    build_messages "S" "{question} {question}" "Q" [] none
      = [⟨"system", "S"⟩, ⟨"user", "Q Q"⟩]
    ∧ substituteOnce "{question} {question}" "{question}" "Q" = "Q {question}"
    ∧ containsSub "{question}".data "Q Q".data = false
    ∧ ("Q Q" : String) ≠ "Q {question}" := by
  refine ⟨rfl, rfl, rfl, ?_⟩
  decide

/-- C6 amended: `build_messages` substitutes every occurrence of
"\x7bquestion\x7d" in the user template, then every occurrence of
"\x7bcontext\x7d" in the result (so a "\x7bcontext\x7d" brought in by the
question text is substituted as well); placeholders it does not know are
left verbatim, without an error (a template containing neither known
placeholder passes through unchanged). -/
theorem C6_amended_substitution (system_template user_template question : String)
    (chunks : List Chunk)
    (hq : containsSub "{question}".data user_template.data = false)
    (hc : containsSub "{context}".data user_template.data = false) :
    build_messages system_template user_template question chunks none
      = [⟨"system", system_template⟩, ⟨"user", user_template⟩]
    ∧ build_messages "S" "{question} {question}" "Q" [] none
      = [⟨"system", "S"⟩, ⟨"user", "Q Q"⟩]
    ∧ build_messages "S" "A: {question}" "see {context}" [] none
      = [⟨"system", "S"⟩,
         ⟨"user", "A: see [No se encontró contexto relevante]"⟩] := by
  have h1 : pyReplace user_template "{question}" question = user_template :=
    pyReplace_of_not_containsSub _ _ _ hq
  have h2 : pyReplace user_template "{context}" (format_context chunks) =
      user_template :=
    pyReplace_of_not_containsSub _ _ _ hc
  exact ⟨by simp [build_messages, h1, h2], rfl, rfl⟩

/-- Witness for the amended C6: a template whose only placeholder is the
unknown "\x7bfoo\x7d" is passed through verbatim. -/
theorem C6_amended_substitution_witness :
    build_messages "SYS" "Pregunta sin marcador {foo}" "Q" [] none
      = [⟨"system", "SYS"⟩, ⟨"user", "Pregunta sin marcador {foo}"⟩]
    ∧ build_messages "S" "{question} {question}" "Q" [] none
      = [⟨"system", "S"⟩, ⟨"user", "Q Q"⟩]
    ∧ build_messages "S" "A: {question}" "see {context}" [] none
      = [⟨"system", "S"⟩,
         ⟨"user", "A: see [No se encontró contexto relevante]"⟩] :=
  C6_amended_substitution "SYS" "Pregunta sin marcador {foo}" "Q" []
    (by decide) (by decide)

/-! ## Vector retrieval (`app/qdrant_client.py` and `app/retrieval.py`)

The Qdrant backend is external: the embedded `search` takes the raw index
response (the hit list returned by `query_points`/`search`, to which the
code passed `score_threshold` along) as a parameter, plus flags for the
collection-existence probe and for both query methods being unavailable. -/

/-- One raw hit of the index response.  Missing attributes and payload keys
(`hasattr` probes and `payload.get` defaults in the formatting loop) are
modelled as `none`. -/
structure RawHit where
  id : Option String
  score : Option Rat
  source : Option String
  source_path : Option String
  text : Option String
deriving Repr, DecidableEq

/-- The per-hit formatting of `search` in `app/qdrant_client.py`: defaults
"unknown" for a missing id, `0.0` for a missing score, key `source` then
`source_path` then "unknown" for the source, `""` for missing text. -/
def formatHit (h : RawHit) : Chunk :=
  { id := h.id.getD "unknown"
    source := h.source.getD (h.source_path.getD "unknown")
    text := h.text.getD ""
    score := h.score.getD 0 }

/-- Function `search` of `app/qdrant_client.py`: empty when the collection probe
fails or no query method is available; otherwise every hit of the index
response is formatted and returned — the function itself applies no score
filtering (the threshold was only forwarded to the backend query). -/
def search (collection_exists : Bool) (index_response : Option (List RawHit)) :
    List Chunk :=
  if collection_exists then
    match index_response with
    | none => []
    | some hits => hits.map formatHit
  else []

/-- Function `retrieve_context` of `app/retrieval.py`: an embedding failure yields
`[]`; otherwise the search result is returned unchanged. -/
def retrieve_context (embed_ok : Bool) (collection_exists : Bool)
    (index_response : Option (List RawHit)) : List Chunk :=
  if embed_ok then search collection_exists index_response else []

/-- An index-response hit below the 0.9 threshold. -/
def lowScoreHit : RawHit :=
  ⟨some "1", some (1/2), some "docs/a.txt", none, some "low score passage"⟩

/-- An index-response hit above the 0.9 threshold. -/
def highScoreHit : RawHit :=
  ⟨some "2", some (95/100), some "docs/b.txt", none, some "high score passage"⟩

/-- C4 as stated is false: retrieval applies no score filtering of its own,
so an index response that (contrary to the forwarded threshold) contains a
hit with score 1/2 makes `retrieve_context` return a chunk with score
1/2 < 9/10. -/
theorem C4_counterexample :
    formatHit lowScoreHit
      ∈ retrieve_context true true (some [highScoreHit, lowScoreHit])
    ∧ (formatHit lowScoreHit).score < 9/10 := by
  constructor
  · simp [retrieve_context, search]
  · norm_num [formatHit, lowScoreHit]

/-- C4 amended: score filtering is delegated to the index backend (the
threshold is passed along with the query); the retriever returns exactly
the formatted hits of the index response, so whenever the index response
honours the threshold, no returned chunk scores below it. -/
theorem C4_amended_threshold_delegated (t : Rat) (embed_ok collection_exists : Bool)
    (hits : List RawHit)
    (hindex : ∀ h ∈ hits, t ≤ (formatHit h).score) :
    ∀ c ∈ retrieve_context embed_ok collection_exists (some hits), t ≤ c.score := by
  intro c hc
  cases embed_ok with
  | false => simp [retrieve_context] at hc
  | true =>
    cases collection_exists with
    | false => simp [retrieve_context, search] at hc
    | true =>
      simp only [retrieve_context, search, if_true] at hc
      obtain ⟨h, hh, rfl⟩ := List.mem_map.mp hc
      exact hindex h hh

/-- Witness for the amended C4 at threshold 9/10 and a single honouring
hit. -/
theorem C4_amended_threshold_delegated_witness :
    (9/10 : Rat) ≤ (formatHit highScoreHit).score :=
  C4_amended_threshold_delegated (9/10) true true [highScoreHit]
    (by
      intro h hh
      simp only [List.mem_singleton] at hh
      subst hh
      norm_num [formatHit, highScoreHit])
    (formatHit highScoreHit)
    (by simp [retrieve_context, search])

/-! ## Response cache (`app/cache.py`)

Redis is external: the store is an association list from full Redis keys to
stored responses, newest first (`setex` overwrites).  The md5 hex digest is
a parameter `md5hex`; no claim needs any property of the digest beyond it
being a function.  TTL expiry is wall-clock and has no embedding (all cache
claims are about immediate repeats). -/

/-- Constant `QueryCache.KEY_PREFIX`. -/
def KEY_PREFIX : String := "raf:cache:query:"

/-- Method `QueryCache._make_key`: normalize the query by `lower().strip()`,
prepend the rag id with a ":" separator, hash, and prefix. -/
def make_key (md5hex : String → String) (query rag_id : String) : String :=
  KEY_PREFIX ++ md5hex (rag_id ++ ":" ++ pyStrip (pyLower query))

/-- C9: the cache key is a pure function of `(query, rag_id)` — repeated
application yields the same key — and it normalizes surrounding whitespace
and case: " Q " and "q" produce the same key, for every rag id and every
digest function. -/
theorem C9_fingerprint_deterministic (md5hex : String → String) (q c : String) :
    make_key md5hex q c = make_key md5hex q c
    ∧ make_key md5hex " Q " c = make_key md5hex "q" c :=
  ⟨rfl, rfl⟩

/-! ## Metrics (`app/observability.py`) -/

/-- The `Metrics` container: four counters and the bounded latency deque. -/
structure Metrics where
  requests_total : Nat
  errors_total : Nat
  cache_hits_total : Nat
  rate_limited_total : Nat
  latencies_ms : List Rat
deriving Repr, DecidableEq

/-- The freshly constructed `Metrics()` instance (process start). -/
def Metrics.init : Metrics := ⟨0, 0, 0, 0, []⟩

/-- Size of the `deque(maxlen=1000)` window for latencies. -/
def latencyWindow : Nat := 1000

/-- The mutating operations of `Metrics`, as an operation alphabet: each
query path is embedded as the list of operations it performs. -/
inductive MetricOp where
  | incRequests
  | incErrors
  | incCacheHits
  | incRateLimited
  | recordLatency (ms : Rat)
deriving Repr, DecidableEq

/-- Apply one metrics operation: `inc_requests`, `inc_errors`,
`inc_cache_hits`, `inc_rate_limited`, `record_latency` of
`app/observability.py`.  `record_latency` appends to the deque, which drops
from the left beyond `maxlen`. -/
def applyOp (m : Metrics) : MetricOp → Metrics
  | .incRequests => { m with requests_total := m.requests_total + 1 }
  | .incErrors => { m with errors_total := m.errors_total + 1 }
  | .incCacheHits => { m with cache_hits_total := m.cache_hits_total + 1 }
  | .incRateLimited => { m with rate_limited_total := m.rate_limited_total + 1 }
  | .recordLatency ms =>
    { m with latencies_ms :=
        (m.latencies_ms ++ [ms]).drop ((m.latencies_ms.length + 1) - latencyWindow) }

/-- Insertion into a sorted latency list (helper for the p95 sort). -/
def insertSorted (x : Rat) : List Rat → List Rat
  | [] => [x]
  | y :: ys => if x ≤ y then x :: y :: ys else y :: insertSorted x ys

/-- Sorting `sorted(...)` over the latency window. -/
def sortLatencies (l : List Rat) : List Rat := l.foldr insertSorted []

/-- The flat snapshot returned by `Metrics.get_snapshot` (and served by the
`/metrics` endpoint).  Latency statistics are exact-rational versions of
the Python float arithmetic; the `round(x, 2)` float rounding is abstracted
to exact rational rounding. -/
structure Snapshot where
  requests_total : Nat
  errors_total : Nat
  cache_hits_total : Nat
  rate_limited_total : Nat
  avg_latency_ms : Rat
  p95_latency_ms : Rat
  latency_samples : Nat
deriving Repr, DecidableEq

/-- Rounding `round(x, 2)` on the latency averages, in exact arithmetic. -/
def round2 (q : Rat) : Rat := (round (q * 100) : Int) / 100

/-- Method `Metrics.get_snapshot` of `app/observability.py`. -/
def get_snapshot (m : Metrics) : Snapshot :=
  let lat := m.latencies_ms
  let avg : Rat := if lat = [] then 0 else lat.sum / lat.length
  let p95 : Rat :=
    if lat = [] then 0
    else
      let sorted := sortLatencies lat
      let idx := lat.length * 95 / 100
      sorted.getD (min idx (lat.length - 1)) 0
  { requests_total := m.requests_total
    errors_total := m.errors_total
    cache_hits_total := m.cache_hits_total
    rate_limited_total := m.rate_limited_total
    avg_latency_ms := round2 avg
    p95_latency_ms := round2 p95
    latency_samples := lat.length }

/-- Folding operations that never include `inc_rate_limited` never changes
the `rate_limited_total` counter. -/
theorem foldl_applyOp_rate_limited (ops : List MetricOp) :
    ∀ m : Metrics, (∀ op ∈ ops, op ≠ MetricOp.incRateLimited) →
      (ops.foldl applyOp m).rate_limited_total = m.rate_limited_total := by
  induction ops with
  | nil => intro m _; rfl
  | cons op rest ih =>
    intro m h
    have hop : op ≠ MetricOp.incRateLimited := h op (List.mem_cons_self op rest)
    have hrest : ∀ o ∈ rest, o ≠ MetricOp.incRateLimited :=
      fun o ho => h o (List.mem_cons_of_mem op ho)
    rw [List.foldl_cons, ih (applyOp m op) hrest]
    cases op <;> simp_all [applyOp]

/-! ## Query orchestration (`app/routes/query.py`)

`query_simple` (`POST /query/simple`) and `query_rag` (`POST /query`) are
embedded as pure functions of the request, the current cache store and an
environment holding the outcomes of every external collaborator for this
request.  Responses keep the fields the claims talk about; the wall-clock
`latency_ms` response field and the random `session_id` are omitted.
Metric mutations are returned as the ordered list of operations the handler
performs. -/

/-- Record `SimpleQueryResponse` of `app/routes/query.py` (without the wall-clock
`latency_ms` field).  The dict stored in the cache carries exactly these
three fields, so the same structure serves as the cached-answer record. -/
structure SimpleQueryResponse where
  answer : String
  sources : List String
  context_chunks : List Chunk
deriving Repr, DecidableEq

/-- The Redis key space used by `QueryCache`: full key, newest entry
first. -/
abbrev CacheStore := List (String × SimpleQueryResponse)

/-- Method `QueryCache.get`: `None` when Redis is unavailable (graceful
degradation), otherwise the stored entry for the key. -/
def cacheGet (available : Bool) (store : CacheStore) (key : String) :
    Option SimpleQueryResponse :=
  if available then (store.find? (fun p => p.1 == key)).map (fun p => p.2)
  else none

/-- Method `QueryCache.set` (Redis `setex`): no-op when Redis is unavailable,
otherwise overwrite the entry for the key. -/
def cacheSet (available : Bool) (store : CacheStore) (key : String)
    (v : SimpleQueryResponse) : CacheStore :=
  if available then (key, v) :: store.filter (fun p => !(p.1 == key)) else store

/-- A freshly written entry is read back (with the backend available). -/
theorem cacheGet_cacheSet_self (store : CacheStore) (key : String)
    (v : SimpleQueryResponse) :
    cacheGet true (cacheSet true store key v) key = some v := by
  simp [cacheGet, cacheSet]

/-- Failure modes of the generation call as `query_simple` distinguishes
them: `OpenRouterError` (its own `except` clause) and any other exception
(the generic `except Exception` clause). -/
inductive LlmFailure where
  | openRouter (e : OpenRouterErr)
  | other (msg : String)
deriving Repr, DecidableEq

/-- Per-request outcomes of the external collaborators:
Redis availability, the md5 digest, the embedding call, the Qdrant
collection probe and index response, template loading, the generation call
(`call_with_fallback`) as a function of the built messages, and the timer
reading. -/
structure QueryEnv where
  cache_available : Bool
  md5hex : String → String
  embed_ok : Bool
  collection_exists : Bool
  index_response : Option (List RawHit)
  templates : Except String (String × String)
  llm : List Message → Except LlmFailure String
  elapsed_ms : Rat

/-- The fixed no-context answer of both endpoints. -/
def noContextMsg : String := "No se encontró contexto relevante para tu pregunta."

/-- The `try/except` block around the generation call in `query_simple`:
the answer string actually used, plus the metric operations the block
performs. -/
def llm_answer (outcome : Except LlmFailure String) : String × List MetricOp :=
  match outcome with
  | Except.ok content => (content, [])
  | Except.error (LlmFailure.openRouter e) =>
    ("Error al generar respuesta: " ++ e.message, [MetricOp.incErrors])
  | Except.error (LlmFailure.other msg) =>
    ("Error: " ++ msg, [MetricOp.incErrors])

/-- Record `SimpleQueryRequest`: `top_k` and `score_threshold` are forwarded to the
external retrieval collaborators (whose outcome the environment already
fixes). -/
structure SimpleRequest where
  query : String
  rag_id : String := "default"
  top_k : Nat := 5
  score_threshold : Rat := 0

/-- Handler `query_simple` of `app/routes/query.py` (`POST /query/simple`):
cache lookup first; on a hit the cached answer is returned unchanged.  On a
miss: retrieval; an empty chunk list returns the fixed no-context answer
WITHOUT touching the cache; a template-loading failure returns an error
answer, also without caching; otherwise the generation block runs and its
answer — be it real content or an error message — is stored in the cache
before returning.  The result carries the response, the updated cache store
and the ordered metric operations. -/
def query_simple (env : QueryEnv) (cache : CacheStore) (req : SimpleRequest) :
    SimpleQueryResponse × CacheStore × List MetricOp :=
  let key := make_key env.md5hex req.query req.rag_id
  match cacheGet env.cache_available cache key with
  | some cached =>
    (⟨cached.answer, cached.sources, cached.context_chunks⟩, cache,
      [MetricOp.incRequests, MetricOp.incCacheHits,
       MetricOp.recordLatency env.elapsed_ms])
  | none =>
    let context_chunks :=
      retrieve_context env.embed_ok env.collection_exists env.index_response
    let sources := (context_chunks.map (fun c => c.source)).dedup
    if context_chunks = [] then
      (⟨noContextMsg, [], []⟩, cache,
        [MetricOp.incRequests, MetricOp.recordLatency env.elapsed_ms])
    else
      match env.templates with
      | Except.error msg =>
        (⟨"Error: No se pudieron cargar los templates - " ++ msg, sources,
            context_chunks⟩, cache,
          [MetricOp.incRequests, MetricOp.incErrors,
           MetricOp.recordLatency env.elapsed_ms])
      | Except.ok (system_template, user_template) =>
        let messages :=
          build_messages system_template user_template req.query context_chunks none
        let result := llm_answer (env.llm messages)
        let response : SimpleQueryResponse := ⟨result.1, sources, context_chunks⟩
        (response, cacheSet env.cache_available cache key response,
          [MetricOp.incRequests] ++ result.2 ++
            [MetricOp.recordLatency env.elapsed_ms])

/-- Record `QueryRequest` of the full endpoint. -/
structure QueryRequest where
  rag_id : String
  question : String
  top_k : Nat := 5
  score_threshold : Option Rat := none

/-- Record `QueryResponse` of the full endpoint (without the wall-clock
`latency_ms` and the random `session_id`). -/
structure QueryResponse where
  rag_id : String
  answer : String
  context_chunks : List Chunk
  cache_hit : Bool
deriving Repr, DecidableEq

/-- Handler `query_rag` of `app/routes/query.py` (`POST /query`): no cache
interaction at all — every successful response carries
`cache_hit = false`.  A template failure raises HTTP 500; a generic
generation failure reaches the outer handler and also raises HTTP 500; an
`OpenRouterError` is converted to an error answer. -/
def query_rag (env : QueryEnv) (req : QueryRequest) :
    Except Nat QueryResponse × List MetricOp :=
  let context_chunks :=
    retrieve_context env.embed_ok env.collection_exists env.index_response
  if context_chunks = [] then
    (Except.ok ⟨req.rag_id, noContextMsg, [], false⟩,
      [MetricOp.incRequests, MetricOp.recordLatency env.elapsed_ms])
  else
    match env.templates with
    | Except.error _ =>
      (Except.error 500,
        [MetricOp.incRequests, MetricOp.incErrors,
         MetricOp.recordLatency env.elapsed_ms])
    | Except.ok (system_template, user_template) =>
      let messages :=
        build_messages system_template user_template req.question context_chunks none
      match env.llm messages with
      | Except.ok content =>
        (Except.ok ⟨req.rag_id, content, context_chunks, false⟩,
          [MetricOp.incRequests, MetricOp.recordLatency env.elapsed_ms])
      | Except.error (LlmFailure.openRouter e) =>
        (Except.ok ⟨req.rag_id, "Error al generar respuesta: " ++ e.message,
            context_chunks, false⟩,
          [MetricOp.incRequests, MetricOp.incErrors,
           MetricOp.recordLatency env.elapsed_ms])
      | Except.error (LlmFailure.other _) =>
        (Except.error 500,
          [MetricOp.incRequests, MetricOp.incErrors,
           MetricOp.recordLatency env.elapsed_ms])

/-! ### Evaluation lemmas for `query_simple` -/

/-- On a cache hit, `query_simple` returns the cached answer, leaves the
store unchanged, and counts a request and a cache hit. -/
theorem query_simple_hit (env : QueryEnv) (cache : CacheStore)
    (req : SimpleRequest) (r : SimpleQueryResponse)
    (hhit : cacheGet env.cache_available cache
        (make_key env.md5hex req.query req.rag_id) = some r) :
    query_simple env cache req =
      (r, cache, [MetricOp.incRequests, MetricOp.incCacheHits,
        MetricOp.recordLatency env.elapsed_ms]) := by
  simp only [query_simple, hhit]

/-- On a cache miss with empty retrieval, `query_simple` returns the fixed
no-context answer and leaves the store unchanged. -/
theorem query_simple_miss_empty (env : QueryEnv) (cache : CacheStore)
    (req : SimpleRequest)
    (hmiss : cacheGet env.cache_available cache
        (make_key env.md5hex req.query req.rag_id) = none)
    (hchunks : retrieve_context env.embed_ok env.collection_exists
        env.index_response = []) :
    query_simple env cache req =
      (⟨noContextMsg, [], []⟩, cache,
        [MetricOp.incRequests, MetricOp.recordLatency env.elapsed_ms]) := by
  simp only [query_simple, hmiss, hchunks]
  simp

/-- On a cache miss with nonempty retrieval and loaded templates,
`query_simple` runs the generation block and stores whatever answer it
produced — real content or error text alike — under the request key. -/
theorem query_simple_miss_nonempty (env : QueryEnv) (cache : CacheStore)
    (req : SimpleRequest) (st ut : String)
    (hmiss : cacheGet env.cache_available cache
        (make_key env.md5hex req.query req.rag_id) = none)
    (hchunks : retrieve_context env.embed_ok env.collection_exists
        env.index_response ≠ [])
    (htmpl : env.templates = Except.ok (st, ut)) :
    query_simple env cache req =
      (⟨(llm_answer (env.llm (build_messages st ut req.query
            (retrieve_context env.embed_ok env.collection_exists
              env.index_response) none))).1,
        ((retrieve_context env.embed_ok env.collection_exists
            env.index_response).map (fun c => c.source)).dedup,
        retrieve_context env.embed_ok env.collection_exists env.index_response⟩,
       cacheSet env.cache_available cache
         (make_key env.md5hex req.query req.rag_id)
         ⟨(llm_answer (env.llm (build_messages st ut req.query
              (retrieve_context env.embed_ok env.collection_exists
                env.index_response) none))).1,
          ((retrieve_context env.embed_ok env.collection_exists
              env.index_response).map (fun c => c.source)).dedup,
          retrieve_context env.embed_ok env.collection_exists env.index_response⟩,
       [MetricOp.incRequests] ++
         (llm_answer (env.llm (build_messages st ut req.query
            (retrieve_context env.embed_ok env.collection_exists
              env.index_response) none))).2 ++
         [MetricOp.recordLatency env.elapsed_ms]) := by
  simp only [query_simple, hmiss, htmpl, hchunks]
  simp

/-- After a miss that reached the generation block, an immediate identical
repeat — possibly under different collaborator outcomes `env2`, e.g. a
recovered LLM — is answered entirely from the cache: same response, store
unchanged, a cache hit counted. -/
theorem query_simple_repeat_hit (env env2 : QueryEnv) (cache : CacheStore)
    (req : SimpleRequest) (st ut : String)
    (havail : env.cache_available = true)
    (havail2 : env2.cache_available = true)
    (hhash : env2.md5hex = env.md5hex)
    (hmiss : cacheGet env.cache_available cache
        (make_key env.md5hex req.query req.rag_id) = none)
    (hchunks : retrieve_context env.embed_ok env.collection_exists
        env.index_response ≠ [])
    (htmpl : env.templates = Except.ok (st, ut)) :
    query_simple env2 (query_simple env cache req).2.1 req =
      ((query_simple env cache req).1, (query_simple env cache req).2.1,
       [MetricOp.incRequests, MetricOp.incCacheHits,
        MetricOp.recordLatency env2.elapsed_ms]) := by
  have h1 := query_simple_miss_nonempty env cache req st ut hmiss hchunks htmpl
  rw [havail] at h1
  have hresp : (query_simple env cache req).1 =
      ⟨(llm_answer (env.llm (build_messages st ut req.query
          (retrieve_context env.embed_ok env.collection_exists
            env.index_response) none))).1,
        ((retrieve_context env.embed_ok env.collection_exists
            env.index_response).map (fun c => c.source)).dedup,
        retrieve_context env.embed_ok env.collection_exists env.index_response⟩ := by
    rw [h1]
  have hstore : (query_simple env cache req).2.1 =
      cacheSet true cache (make_key env.md5hex req.query req.rag_id)
        (query_simple env cache req).1 := by
    rw [hresp, h1]
  have hhit : cacheGet env2.cache_available (query_simple env cache req).2.1
      (make_key env2.md5hex req.query req.rag_id)
      = some (query_simple env cache req).1 := by
    rw [havail2, hhash, hstore]
    exact cacheGet_cacheSet_self cache _ _
  exact query_simple_hit env2 (query_simple env cache req).2.1 req
    (query_simple env cache req).1 hhit

/-! ### Concrete scenario environments -/

/-- An index hit for the demo collection. -/
def demoHit : RawHit :=
  ⟨some "1", some (89/100), some "docs/rag.txt", none,
    some "RAG combines search and generation"⟩

/-- Baseline environment: every collaborator healthy.  `id` stands in for
the md5 hex digest in concrete runs (no claim needs any property of the
digest). -/
def envBase : QueryEnv :=
  { cache_available := true
    md5hex := id
    embed_ok := true
    collection_exists := true
    index_response := some [demoHit]
    templates := Except.ok ("SYS", "Pregunta: {question}\nContexto: {context}")
    llm := fun _ => Except.ok "RAG combina búsqueda y generación."
    elapsed_ms := 5 }

/-- Environment in which generation fails entirely (primary and fallback
both exhausted, surfacing as one `OpenRouterError`). -/
def envLlmFail : QueryEnv :=
  { envBase with
    llm := fun _ => Except.error (LlmFailure.openRouter ⟨"both models failed", none⟩) }

/-- Environment in which the index returns no hits. -/
def envNoHits : QueryEnv := { envBase with index_response := some [] }

/-- The demo request for the simple endpoint. -/
def reqDemo : SimpleRequest := { query := "what is rag?" }

/-- The demo request for the full endpoint. -/
def reqRag : QueryRequest := { rag_id := "default", question := "What is RAG?" }

/-! ### Claims C1, C2, C5 -/

/-- C1 as stated is false: when generation fails entirely, `query_simple`
falls through to the cache write, so the error-message answer IS stored;
the immediately repeated identical query — here under an environment whose
LLM has recovered — returns the same error answer from the cache (with a
cache-hit metric) instead of re-attempting generation. -/
theorem C1_counterexample :
    (query_simple envLlmFail [] reqDemo).1.answer
      = "Error al generar respuesta: both models failed"
    ∧ cacheGet true (query_simple envLlmFail [] reqDemo).2.1
        (make_key id "what is rag?" "default")
      = some (query_simple envLlmFail [] reqDemo).1
    ∧ (query_simple envBase (query_simple envLlmFail [] reqDemo).2.1 reqDemo).1.answer
      = "Error al generar respuesta: both models failed"
    ∧ MetricOp.incCacheHits
      ∈ (query_simple envBase (query_simple envLlmFail [] reqDemo).2.1 reqDemo).2.2 := by
  refine ⟨rfl, rfl, rfl, ?_⟩
  decide

/-- C1 amended: on total generation failure the orchestration returns an
error-message answer and DOES store it in the response cache; a subsequent
identical query is served that cached error (a cache hit) without
re-attempting retrieval or generation, even if the infrastructure has
recovered (`env2` is arbitrary apart from cache availability and the shared
digest function). -/
theorem C1_amended_error_answer_cached (env env2 : QueryEnv) (cache : CacheStore)
    (req : SimpleRequest) (st ut : String) (e : OpenRouterErr)
    (havail : env.cache_available = true)
    (havail2 : env2.cache_available = true)
    (hhash : env2.md5hex = env.md5hex)
    (hmiss : cacheGet env.cache_available cache
        (make_key env.md5hex req.query req.rag_id) = none)
    (hchunks : retrieve_context env.embed_ok env.collection_exists
        env.index_response ≠ [])
    (htmpl : env.templates = Except.ok (st, ut))
    (hllm : env.llm (build_messages st ut req.query
        (retrieve_context env.embed_ok env.collection_exists
          env.index_response) none)
      = Except.error (LlmFailure.openRouter e)) :
    (query_simple env cache req).1.answer
      = "Error al generar respuesta: " ++ e.message
    ∧ cacheGet true (query_simple env cache req).2.1
        (make_key env.md5hex req.query req.rag_id)
      = some (query_simple env cache req).1
    ∧ (query_simple env2 (query_simple env cache req).2.1 req).1.answer
      = "Error al generar respuesta: " ++ e.message
    ∧ MetricOp.incCacheHits
      ∈ (query_simple env2 (query_simple env cache req).2.1 req).2.2 := by
  have h1 := query_simple_miss_nonempty env cache req st ut hmiss hchunks htmpl
  rw [havail] at h1
  have hans : (query_simple env cache req).1.answer
      = "Error al generar respuesta: " ++ e.message := by
    rw [h1]
    simp [llm_answer, hllm]
  have hstore : (query_simple env cache req).2.1 =
      cacheSet true cache (make_key env.md5hex req.query req.rag_id)
        (query_simple env cache req).1 := by
    rw [h1]
  have hrepeat := query_simple_repeat_hit env env2 cache req st ut havail havail2
    hhash hmiss hchunks htmpl
  refine ⟨hans, ?_, ?_, ?_⟩
  · rw [hstore]
    exact cacheGet_cacheSet_self cache _ _
  · rw [hrepeat]
    exact hans
  · rw [hrepeat]
    simp

/-- Witness for the amended C1 at the concrete failing-LLM environment,
with a recovered environment for the repeat. -/
theorem C1_amended_error_answer_cached_witness :
    (query_simple envLlmFail [] reqDemo).1.answer
      = "Error al generar respuesta: " ++ "both models failed"
    ∧ cacheGet true (query_simple envLlmFail [] reqDemo).2.1
        (make_key envLlmFail.md5hex reqDemo.query reqDemo.rag_id)
      = some (query_simple envLlmFail [] reqDemo).1
    ∧ (query_simple envBase (query_simple envLlmFail [] reqDemo).2.1 reqDemo).1.answer
      = "Error al generar respuesta: " ++ "both models failed"
    ∧ MetricOp.incCacheHits
      ∈ (query_simple envBase (query_simple envLlmFail [] reqDemo).2.1 reqDemo).2.2 :=
  C1_amended_error_answer_cached envLlmFail envBase [] reqDemo
    "SYS" "Pregunta: {question}\nContexto: {context}"
    ⟨"both models failed", none⟩ rfl rfl rfl rfl (by decide) rfl rfl

/-- C2 as stated is false: with an empty index response the fixed
no-context answer is returned but NOT stored (the handler returns before
the cache write), so the second identical call is again a miss and counts
no cache hit. -/
theorem C2_counterexample :
    (query_simple envNoHits [] reqDemo).1.answer = noContextMsg
    ∧ (query_simple envNoHits [] reqDemo).1.context_chunks = []
    ∧ (query_simple envNoHits [] reqDemo).2.1 = []
    ∧ MetricOp.incCacheHits
      ∉ (query_simple envNoHits (query_simple envNoHits [] reqDemo).2.1 reqDemo).2.2 := by
  refine ⟨rfl, rfl, rfl, ?_⟩
  decide

/-- C2 amended: on a miss with empty retrieved context the orchestration
returns the fixed no-context answer with empty chunks, but does NOT store
it in the cache: the store is unchanged, and an immediate identical repeat
misses again (no cache-hit metric), re-running retrieval. -/
theorem C2_amended_no_context_not_cached (env : QueryEnv) (cache : CacheStore)
    (req : SimpleRequest)
    (hmiss : cacheGet env.cache_available cache
        (make_key env.md5hex req.query req.rag_id) = none)
    (hchunks : retrieve_context env.embed_ok env.collection_exists
        env.index_response = []) :
    (query_simple env cache req).1 = ⟨noContextMsg, [], []⟩
    ∧ (query_simple env cache req).2.1 = cache
    ∧ MetricOp.incCacheHits ∉ (query_simple env cache req).2.2
    ∧ MetricOp.incCacheHits
      ∉ (query_simple env (query_simple env cache req).2.1 req).2.2 := by
  have h1 := query_simple_miss_empty env cache req hmiss hchunks
  have hstore : (query_simple env cache req).2.1 = cache := by rw [h1]
  have h2 : query_simple env (query_simple env cache req).2.1 req =
      (⟨noContextMsg, [], []⟩, cache,
        [MetricOp.incRequests, MetricOp.recordLatency env.elapsed_ms]) := by
    rw [hstore]
    exact h1
  refine ⟨by rw [h1], hstore, ?_, ?_⟩
  · rw [h1]
    simp
  · rw [h2]
    simp

/-- Witness for the amended C2 at the concrete empty-index environment. -/
theorem C2_amended_no_context_not_cached_witness :
    (query_simple envNoHits [] reqDemo).1 = ⟨noContextMsg, [], []⟩
    ∧ (query_simple envNoHits [] reqDemo).2.1 = []
    ∧ MetricOp.incCacheHits ∉ (query_simple envNoHits [] reqDemo).2.2
    ∧ MetricOp.incCacheHits
      ∉ (query_simple envNoHits (query_simple envNoHits [] reqDemo).2.1 reqDemo).2.2 :=
  C2_amended_no_context_not_cached envNoHits [] reqDemo rfl rfl

/-- Every outcome of `query_rag` — no-context, template failure, LLM
success or failure — carries `cache_hit = false` (or is an HTTP error):
the handler has no cache interaction at all. -/
theorem query_rag_never_cache_hit (env : QueryEnv) (req : QueryRequest) :
    (query_rag env req).1.map (fun r => r.cache_hit) ≠ Except.ok true := by
  unfold query_rag
  by_cases hc : retrieve_context env.embed_ok env.collection_exists
    env.index_response = []
  · simp [hc, Except.map]
  · rcases htmp : env.templates with msg | ⟨st, ut⟩
    · simp [hc, htmp, Except.map]
    · rcases hl : env.llm (build_messages st ut req.question
        (retrieve_context env.embed_ok env.collection_exists
          env.index_response) none) with f | content
      · rcases f with e | msg <;> simp [hc, htmp, hl, Except.map]
      · simp [hc, htmp, hl, Except.map]

/-- C5 as stated is false for the endpoint that carries a `cache_hit`
field: `query_rag` takes no cache state at all (the handler never consults
the cache), so the immediately repeated identical query evaluates the very
same function and again returns `cache_hit = false`, never `true`. -/
theorem C5_counterexample :
    (query_rag envBase reqRag).1
      = Except.ok ⟨"default", "RAG combina búsqueda y generación.",
          [formatHit demoHit], false⟩
    ∧ (query_rag envBase reqRag).2
      = [MetricOp.incRequests, MetricOp.recordLatency 5]
    ∧ (false ≠ true) := by
  refine ⟨rfl, rfl, ?_⟩
  decide

/-- C5 amended: `query_rag` performs no caching and always answers
`cache_hit = false`; it is `query_simple` (whose response carries no
`cache_hit` field) that caches: a query answered on a miss that reached the
generation block, when repeated immediately, is served from the cache with
the identical response — same `answer`, same `sources`, same
`context_chunks` — leaves the store unchanged, and counts a cache hit. -/
theorem C5_amended_repeat_served_from_cache (env env2 : QueryEnv)
    (cache : CacheStore) (req : SimpleRequest) (st ut : String)
    (havail : env.cache_available = true)
    (havail2 : env2.cache_available = true)
    (hhash : env2.md5hex = env.md5hex)
    (hmiss : cacheGet env.cache_available cache
        (make_key env.md5hex req.query req.rag_id) = none)
    (hchunks : retrieve_context env.embed_ok env.collection_exists
        env.index_response ≠ [])
    (htmpl : env.templates = Except.ok (st, ut)) :
    (query_simple env2 (query_simple env cache req).2.1 req).1
      = (query_simple env cache req).1
    ∧ MetricOp.incCacheHits
      ∈ (query_simple env2 (query_simple env cache req).2.1 req).2.2
    ∧ (query_simple env2 (query_simple env cache req).2.1 req).2.1
      = (query_simple env cache req).2.1
    ∧ (∀ env3 req3, (query_rag env3 req3).1.map (fun r => r.cache_hit)
        ≠ Except.ok true) := by
  have hrepeat := query_simple_repeat_hit env env2 cache req st ut havail havail2
    hhash hmiss hchunks htmpl
  exact ⟨by rw [hrepeat], by rw [hrepeat]; simp, by rw [hrepeat],
    fun env3 req3 => query_rag_never_cache_hit env3 req3⟩

/-- Witness for the amended C5 at the baseline environment. -/
theorem C5_amended_repeat_served_from_cache_witness :
    (query_simple envBase (query_simple envBase [] reqDemo).2.1 reqDemo).1
      = (query_simple envBase [] reqDemo).1
    ∧ MetricOp.incCacheHits
      ∈ (query_simple envBase (query_simple envBase [] reqDemo).2.1 reqDemo).2.2
    ∧ (query_simple envBase (query_simple envBase [] reqDemo).2.1 reqDemo).2.1
      = (query_simple envBase [] reqDemo).2.1
    ∧ (∀ env3 req3, (query_rag env3 req3).1.map (fun r => r.cache_hit)
        ≠ Except.ok true) :=
  C5_amended_repeat_served_from_cache envBase envBase [] reqDemo
    "SYS" "Pregunta: {question}\nContexto: {context}"
    rfl rfl rfl rfl (by decide) rfl

/-! ### Claim C10: the rate-limited counter is dead -/

/-- On a cache miss with nonempty retrieval but failing template loading,
`query_simple` returns an error answer without caching it. -/
theorem query_simple_miss_template_error (env : QueryEnv) (cache : CacheStore)
    (req : SimpleRequest) (msg : String)
    (hmiss : cacheGet env.cache_available cache
        (make_key env.md5hex req.query req.rag_id) = none)
    (hchunks : retrieve_context env.embed_ok env.collection_exists
        env.index_response ≠ [])
    (htmpl : env.templates = Except.error msg) :
    query_simple env cache req =
      (⟨"Error: No se pudieron cargar los templates - " ++ msg,
        ((retrieve_context env.embed_ok env.collection_exists
            env.index_response).map (fun c => c.source)).dedup,
        retrieve_context env.embed_ok env.collection_exists env.index_response⟩,
       cache,
       [MetricOp.incRequests, MetricOp.incErrors,
        MetricOp.recordLatency env.elapsed_ms]) := by
  simp only [query_simple, hmiss, htmpl, hchunks]
  simp

/-- The generation try/except block increments at most the error counter —
never the rate-limited counter. -/
theorem llm_answer_no_rate_limited (x : Except LlmFailure String) :
    ∀ op ∈ (llm_answer x).2, op ≠ MetricOp.incRateLimited := by
  rcases x with f | content
  · rcases f with e | msg <;> simp [llm_answer]
  · simp [llm_answer]

/-- No code path of `query_simple` performs `inc_rate_limited`. -/
theorem query_simple_ops_no_rate_limited (env : QueryEnv) (cache : CacheStore)
    (req : SimpleRequest) :
    ∀ op ∈ (query_simple env cache req).2.2, op ≠ MetricOp.incRateLimited := by
  intro op hop
  rcases hcg : cacheGet env.cache_available cache
    (make_key env.md5hex req.query req.rag_id) with _ | r
  · by_cases hc : retrieve_context env.embed_ok env.collection_exists
      env.index_response = []
    · rw [query_simple_miss_empty env cache req hcg hc] at hop
      simp at hop
      rcases hop with rfl | rfl <;> simp
    · rcases htmp : env.templates with msg | ⟨st, ut⟩
      · rw [query_simple_miss_template_error env cache req msg hcg hc htmp] at hop
        simp at hop
        rcases hop with rfl | rfl | rfl <;> simp
      · rw [query_simple_miss_nonempty env cache req st ut hcg hc htmp] at hop
        rcases List.mem_append.mp hop with h1 | h2
        · rcases List.mem_append.mp h1 with ha | hb
          · simp at ha
            subst ha
            simp
          · exact llm_answer_no_rate_limited _ op hb
        · simp at h2
          subst h2
          simp
  · rw [query_simple_hit env cache req r hcg] at hop
    simp at hop
    rcases hop with rfl | rfl | rfl <;> simp

/-- No code path of `query_rag` performs `inc_rate_limited`. -/
theorem query_rag_ops_no_rate_limited (env : QueryEnv) (req : QueryRequest) :
    ∀ op ∈ (query_rag env req).2, op ≠ MetricOp.incRateLimited := by
  intro op hop
  simp only [query_rag] at hop
  by_cases hc : retrieve_context env.embed_ok env.collection_exists
    env.index_response = []
  · simp [hc] at hop
    rcases hop with rfl | rfl <;> simp
  · rcases htmp : env.templates with msg | ⟨st, ut⟩
    · simp [hc, htmp] at hop
      rcases hop with rfl | rfl | rfl <;> simp
    · rcases hl : env.llm (build_messages st ut req.question
        (retrieve_context env.embed_ok env.collection_exists
          env.index_response) none) with f | content
      · rcases f with e | msg
        · simp [hc, htmp, hl] at hop
          rcases hop with rfl | rfl | rfl <;> simp
        · simp [hc, htmp, hl] at hop
          rcases hop with rfl | rfl | rfl <;> simp
      · simp [hc, htmp, hl] at hop
        rcases hop with rfl | rfl <;> simp

/-- C10: neither query endpoint (nor the LLM client, which performs no
metric operation at all in the embedding, mirroring that
`openrouter_client.py` never imports the metrics) ever performs
`inc_rate_limited`, and folding any such operation sequence from process
start leaves the snapshot reporting `rate_limited_total = 0`. -/
theorem C10_rate_limited_total_zero (ops : List MetricOp)
    (h : ∀ op ∈ ops, op ≠ MetricOp.incRateLimited) :
    (get_snapshot (ops.foldl applyOp Metrics.init)).rate_limited_total = 0
    ∧ (∀ env cache req, ∀ op ∈ (query_simple env cache req).2.2,
        op ≠ MetricOp.incRateLimited)
    ∧ (∀ env req, ∀ op ∈ (query_rag env req).2,
        op ≠ MetricOp.incRateLimited) := by
  refine ⟨?_, query_simple_ops_no_rate_limited, query_rag_ops_no_rate_limited⟩
  have hz := foldl_applyOp_rate_limited ops Metrics.init h
  simp only [get_snapshot, hz]
  rfl

/-- Witness for C10 at the metric trace of a concrete cache-hit request. -/
theorem C10_rate_limited_total_zero_witness :
    (get_snapshot (([MetricOp.incRequests, MetricOp.incCacheHits,
        MetricOp.recordLatency 5]).foldl applyOp Metrics.init)).rate_limited_total = 0
    ∧ (∀ env cache req, ∀ op ∈ (query_simple env cache req).2.2,
        op ≠ MetricOp.incRateLimited)
    ∧ (∀ env req, ∀ op ∈ (query_rag env req).2,
        op ≠ MetricOp.incRateLimited) :=
  C10_rate_limited_total_zero
    [MetricOp.incRequests, MetricOp.incCacheHits, MetricOp.recordLatency 5]
    (by decide)

end Rag
